import Mathlib

/-!
Verification development for the `boxdetect` configuration engine
(`boxdetect/config.py`, class `PipelinesConfig`).

The Python class is shallowly embedded as follows:

* Python values stored in config fields are modelled by `PyVal`: a field is
  either a single non-list value (`PyVal.item`) or a Python list of such
  values (`PyVal.list`).  The non-list values occurring in configs are
  integers, floats (modelled as rationals), strings, 2-tuples of ints, and
  2-tuples of floats; additionally `Item.ratList2` models the 2-element
  Python *list* produced by `sorted(...)` in `autoconfigure` when it is
  stored as an element inside a field list (the source never re-inspects
  elements of a field list for list-ness, so representing it as an `Item`
  is faithful for every operation of the class).
* Floats are modelled by `Rat`; the only float arithmetic in the source is
  `int(size * margin_percent)` and true division in the ratio computation,
  both of which the class documentation and tests treat exactly.
* The mutable object is modelled by explicit state passing; methods that
  can raise return `Option`/`Except`, and for `autoconfigure` the error
  carries the state of the object at the point the exception is raised
  (the Python exception leaves the object in exactly that state).
* `variables_as_iterators` returns a Python `zip` object: a one-shot
  iterator.  `ZipIter` models it as the list of not-yet-consumed tuples;
  `ZipIter.consume` models `list(it)`, which returns the remaining
  elements and leaves the iterator exhausted.
* The YAML layer is modelled as the identity on the dumped key/value
  mapping (the spec treats the textual encoding as an out-of-scope,
  faithful round-trippable format); `load_yaml` applies `setattr` for
  every key and then recomputes `num_iterations`, as in the source.
  Unknown keys become dynamic attributes in Python; they are outside the
  recognized field set modelled here and are dropped by `setattrConfig`.
* The DBSCAN call of `autoconfigure` is an external sklearn collaborator;
  per the spec it is treated as a black box producing one cluster label
  per input point, passed to the embedded `autoconfigure` as an explicit
  `labels` argument.  sklearn's input validation rejects an empty sample
  (`ValueError`), which is the first guard of the embedding.
-/

namespace Boxdetect

/-- Scalar (non-list) Python values that occur in `PipelinesConfig` fields. -/
inductive Item where
  | int : Int → Item
  | rat : Rat → Item
  | str : String → Item
  | intPair : Int → Int → Item
  | ratPair : Rat → Rat → Item
  | ratList2 : Rat → Rat → Item
deriving DecidableEq, Repr

instance : Inhabited Item := ⟨Item.int 0⟩

/-- A Python value held in a config field: a single value or a Python list. -/
inductive PyVal where
  | item : Item → PyVal
  | list : List Item → PyVal
deriving DecidableEq, Repr

/-- Length used by `update_num_iterations`: `len` of a list, 1 otherwise
(the source wraps non-lists as `[variable]`). -/
def pyLen : PyVal → Nat
  | .list l => l.length
  | .item _ => 1

/-- A field value is non-empty when it is not the empty Python list. -/
def nonEmptyVal : PyVal → Bool
  | .list [] => false
  | _ => true

/-- The state of a `PipelinesConfig` object: its recognized attributes in
`__init__` order, plus the derived `num_iterations`. -/
@[ext]
structure PipelinesConfig where
  width_range : PyVal
  height_range : PyVal
  wh_ratio_range : PyVal
  scaling_factors : PyVal
  thickness : PyVal
  dilation_kernel : PyVal
  dilation_iterations : PyVal
  morph_kernels_type : PyVal
  morph_kernels_thickness : PyVal
  group_size_range : PyVal
  vertical_max_distance : PyVal
  horizontal_max_distance : PyVal
  num_iterations : Nat
deriving DecidableEq, Repr

/-- The nine fields scanned by `update_num_iterations`, in source order. -/
def trackedList (c : PipelinesConfig) : List PyVal :=
  [c.width_range, c.height_range, c.wh_ratio_range, c.dilation_kernel,
   c.dilation_iterations, c.morph_kernels_type, c.horizontal_max_distance,
   c.morph_kernels_thickness, c.vertical_max_distance]

/-- Maximum of two counters.  The source computes it with the conditional
`len(variable) if num_iterations < len(variable) else num_iterations`; it
is defined here by structural recursion (provably equal to `max`, see
`pyMaxNat_eq_max`) so that partially evaluated proof goals stay small. -/
def pyMaxNat : Nat → Nat → Nat
  | 0, m => m
  | n + 1, 0 => n + 1
  | n + 1, m + 1 => pyMaxNat n m + 1

/-- The value computed by `update_num_iterations`: starting from 1, take the
maximum of `len(variable)` over the tracked fields (non-lists count as 1). -/
def computed_num_iterations (c : PipelinesConfig) : Nat :=
  (trackedList c).foldl (fun acc v => pyMaxNat acc (pyLen v)) 1

/-- `update_num_iterations`: stores the recomputed count on the object. -/
def update_num_iterations (c : PipelinesConfig) : PipelinesConfig :=
  { c with num_iterations := computed_num_iterations c }

/-- The default field values assigned at the top of `__init__`, before the
optional `load_yaml` and the final `update_num_iterations` call.  The
`num_iterations` component is a placeholder: the attribute does not exist
yet in Python and every construction path overwrites it via
`update_num_iterations`.  `horizontal_max_distance` is
`[self.width_range[0][0] * 2]` in the source, i.e. `[40 * 2]`. -/
def baseDefaults : PipelinesConfig where
  width_range := .list [.intPair 40 50]
  height_range := .list [.intPair 50 60]
  wh_ratio_range := .list [.ratPair (0.65 : Rat) (0.1 : Rat)]
  scaling_factors := .list [.rat (0.5 : Rat)]
  thickness := .item (.int 2)
  dilation_kernel := .list [.intPair 2 2]
  dilation_iterations := .list [.int 0]
  morph_kernels_type := .list [.str "lines"]
  morph_kernels_thickness := .list [.int 1]
  group_size_range := .item (.intPair 1 100)
  vertical_max_distance := .list [.int 10]
  horizontal_max_distance := .list [.int (40 * 2)]
  num_iterations := 1

/-- `PipelinesConfig()` with no `yaml_path`: defaults followed by
`update_num_iterations`. -/
def construct : PipelinesConfig :=
  update_num_iterations baseDefaults

/-- `__conv_to_list(x, max_items)`: a list of length at least `max_items`
is returned as-is; a shorter list is replaced by its first element
(raising `IndexError`, modelled as `none`, when it is empty); the value is
then replicated `max_items` times. -/
def conv_to_list (x : PyVal) (max_items : Nat) : Option (List Item) :=
  match x with
  | .list l =>
      if max_items ≤ l.length then some l
      else
        match l with
        | [] => none
        | a :: _ => some (List.replicate max_items a)
  | .item a => some (List.replicate max_items a)

/-- Python `zip` over the nine broadcast lists: emits one tuple per index
until the shortest input is exhausted. -/
def pyZip9 : List Item → List Item → List Item → List Item → List Item →
    List Item → List Item → List Item → List Item → List (List Item)
  | a1 :: t1, a2 :: t2, a3 :: t3, a4 :: t4, a5 :: t5,
    a6 :: t6, a7 :: t7, a8 :: t8, a9 :: t9 =>
      [a1, a2, a3, a4, a5, a6, a7, a8, a9] ::
        pyZip9 t1 t2 t3 t4 t5 t6 t7 t8 t9
  | _, _, _, _, _, _, _, _, _ => []

/-- The `zip` object returned by `variables_as_iterators`: a one-shot
iterator holding the tuples not yet consumed. -/
structure ZipIter where
  remaining : List (List Item)
deriving DecidableEq, Repr

/-- Modelling `list(it)` on a `zip` object: it yields every remaining tuple
and leaves the iterator exhausted. -/
def ZipIter.consume (it : ZipIter) : List (List Item) × ZipIter :=
  (it.remaining, ⟨[]⟩)

/-- The nine fields packed into tuples by `variables_as_iterators`, in the
order of its `variables_list`. -/
def iterFieldsList (c : PipelinesConfig) : List PyVal :=
  [c.width_range, c.height_range, c.wh_ratio_range, c.dilation_iterations,
   c.dilation_kernel, c.vertical_max_distance, c.horizontal_max_distance,
   c.morph_kernels_type, c.morph_kernels_thickness]

/-- `variables_as_iterators`: recomputes `num_iterations`, broadcasts each
of the nine fields to that length (the eager list comprehension aborts the
call with `IndexError`, i.e. `none`, if any broadcast fails), and returns
the updated object together with the `zip` iterator over the lists. -/
def variables_as_iterators (c : PipelinesConfig) :
    Option (PipelinesConfig × ZipIter) :=
  let c' := update_num_iterations c
  let n := c'.num_iterations
  Option.bind (conv_to_list c'.width_range n) fun l1 =>
  Option.bind (conv_to_list c'.height_range n) fun l2 =>
  Option.bind (conv_to_list c'.wh_ratio_range n) fun l3 =>
  Option.bind (conv_to_list c'.dilation_iterations n) fun l4 =>
  Option.bind (conv_to_list c'.dilation_kernel n) fun l5 =>
  Option.bind (conv_to_list c'.vertical_max_distance n) fun l6 =>
  Option.bind (conv_to_list c'.horizontal_max_distance n) fun l7 =>
  Option.bind (conv_to_list c'.morph_kernels_type n) fun l8 =>
  Option.bind (conv_to_list c'.morph_kernels_thickness n) fun l9 =>
  some (c', ⟨pyZip9 l1 l2 l3 l4 l5 l6 l7 l8 l9⟩)

/-- The value placed at position `i` when a field is broadcast to length
`n`: a list of length at least `n` contributes its own element `i`, a
shorter (non-empty) list its first element, and a non-list value itself. -/
def broadcastAt (n : Nat) (v : PyVal) (i : Nat) : Item :=
  match v with
  | .item a => a
  | .list l => if n ≤ l.length then l.getD i default else l.getD 0 default

/-- A tuple component is resolved from a field when it is one of the
field's listed alternatives, or the field's single value: it is never the
list of alternatives itself. -/
def resolvedFrom : PyVal → Item → Prop
  | .list l, comp => comp ∈ l
  | .item a, comp => comp = a

/-- Precondition for the expansion to be total: no iterated field is the
empty Python list. -/
def listOk (c : PipelinesConfig) : Prop :=
  ∀ v ∈ iterFieldsList c, nonEmptyVal v = true

instance (c : PipelinesConfig) : Decidable (listOk c) :=
  inferInstanceAs (Decidable (∀ v ∈ iterFieldsList c, nonEmptyVal v = true))

/-- Closed form of the expansion: tuple `i` holds the broadcast value at
index `i` of each of the nine iterated fields. -/
def expandRows (c : PipelinesConfig) : List (List Item) :=
  (List.range (computed_num_iterations c)).map fun i =>
    (iterFieldsList c).map fun v => broadcastAt (computed_num_iterations c) v i

/-- The flat mapping produced by `save_yaml`: every instance attribute
(name, value) in `__dict__` order — no attribute name starts with the
reserved marker and `callable(key)` is false for every string key, so all
thirteen attributes are dumped, `num_iterations` included.  `yaml.dump`
sorts keys alphabetically in the file; the reconstructed state is
insensitive to key order, so the dump is modelled in attribute order. -/
def save_yaml (c : PipelinesConfig) : List (String × PyVal) :=
  [("width_range", c.width_range),
   ("height_range", c.height_range),
   ("wh_ratio_range", c.wh_ratio_range),
   ("scaling_factors", c.scaling_factors),
   ("thickness", c.thickness),
   ("dilation_kernel", c.dilation_kernel),
   ("dilation_iterations", c.dilation_iterations),
   ("morph_kernels_type", c.morph_kernels_type),
   ("morph_kernels_thickness", c.morph_kernels_thickness),
   ("group_size_range", c.group_size_range),
   ("vertical_max_distance", c.vertical_max_distance),
   ("horizontal_max_distance", c.horizontal_max_distance),
   ("num_iterations", .item (.int (c.num_iterations : Int)))]

/-- Reading a loaded value back into the `Nat`-typed `num_iterations`
slot; `save_yaml` always dumps it as a non-negative integer. -/
def pyToNat : PyVal → Nat
  | .item (.int n) => n.toNat
  | _ => 0

/-- `setattr(self, key, value)` for the recognized attribute names.  A key
outside the recognized set becomes a dynamic attribute on the Python
object (after an advisory warning); dynamic attributes are outside the
modelled field set and do not affect any recognized field. -/
def setattrConfig (c : PipelinesConfig) (key : String) (v : PyVal) :
    PipelinesConfig :=
  if key = "width_range" then { c with width_range := v }
  else if key = "height_range" then { c with height_range := v }
  else if key = "wh_ratio_range" then { c with wh_ratio_range := v }
  else if key = "scaling_factors" then { c with scaling_factors := v }
  else if key = "thickness" then { c with thickness := v }
  else if key = "dilation_kernel" then { c with dilation_kernel := v }
  else if key = "dilation_iterations" then { c with dilation_iterations := v }
  else if key = "morph_kernels_type" then { c with morph_kernels_type := v }
  else if key = "morph_kernels_thickness" then
    { c with morph_kernels_thickness := v }
  else if key = "group_size_range" then { c with group_size_range := v }
  else if key = "vertical_max_distance" then
    { c with vertical_max_distance := v }
  else if key = "horizontal_max_distance" then
    { c with horizontal_max_distance := v }
  else if key = "num_iterations" then { c with num_iterations := pyToNat v }
  else c

/-- `load_yaml`: apply `setattr` for every key of the parsed mapping, then
recompute `num_iterations`.  The YAML text itself is out of scope (the
spec treats the format as faithfully round-trippable), so the parsed
mapping is the dump itself. -/
def load_yaml (c : PipelinesConfig) (d : List (String × PyVal)) :
    PipelinesConfig :=
  update_num_iterations (d.foldl (fun acc kv => setattrConfig acc kv.1 kv.2) c)

/-- `PipelinesConfig(yaml_path)`: defaults, then `load_yaml` (which already
recomputes the count), then the final `update_num_iterations` of
`__init__`; the outer recomputation is absorbed by the one inside
`load_yaml`. -/
def construct_with_yaml (d : List (String × PyVal)) : PipelinesConfig :=
  update_num_iterations (load_yaml baseDefaults d)

/-- Keyword parameters of `autoconfigure` other than `epsilon` (which only
feeds the external clustering call). -/
structure AutoParams where
  margin_percent : Rat
  margin_px_limit : Int
  use_rect_kernel_for_small : Bool
  rect_kernel_threshold : Int
deriving DecidableEq, Repr

/-- Python `int()` on a float: truncation toward zero. -/
def pyInt (q : Rat) : Int :=
  if 0 ≤ q then Int.floor q else -(Int.floor (-q))

/-- `__add_margin_to_size`: `int(size * margin_percent)` capped at
`margin_px_limit`. -/
def add_margin_to_size (size : Int) (margin_percent : Rat)
    (margin_px_limit : Int) : Int :=
  let calc_margin := pyInt ((size : Rat) * margin_percent)
  if calc_margin < margin_px_limit then calc_margin else margin_px_limit

/-- Minimum of the heights over a non-empty cluster group (points are
(height, width) pairs; column 0 is the height). -/
def group_min_h (g0 : Int × Int) (gs : List (Int × Int)) : Int :=
  (gs.map Prod.fst).foldl min g0.1

/-- Maximum of the heights over a non-empty cluster group. -/
def group_max_h (g0 : Int × Int) (gs : List (Int × Int)) : Int :=
  (gs.map Prod.fst).foldl max g0.1

/-- Minimum of the widths over a non-empty cluster group. -/
def group_min_w (g0 : Int × Int) (gs : List (Int × Int)) : Int :=
  (gs.map Prod.snd).foldl min g0.2

/-- Maximum of the widths over a non-empty cluster group. -/
def group_max_w (g0 : Int × Int) (gs : List (Int × Int)) : Int :=
  (gs.map Prod.snd).foldl max g0.2

/-- The four-element row appended to `hw_grouped` for one cluster group:
padded height range, padded width range, sorted ratio pair, and the chosen
morphology-kernel variant. -/
structure GroupEntry where
  hRange : Int × Int
  wRange : Int × Int
  ratio : Rat × Rat
  ktype : String
deriving DecidableEq, Repr

/-- Python `sorted` on a two-element sequence: ascending pair. -/
def sortPairQ (a b : Rat) : Rat × Rat :=
  if a ≤ b then (a, b) else (b, a)

/-- The body of the `autoconfigure` loop for one non-empty cluster group:
tight min/max bounds, outward margin padding, the ratio of the padded
aggregate bounds sorted ascending, and the kernel-variant policy.  A
padded height of zero makes the Python division raise
`ZeroDivisionError`, modelled as `none`. -/
def cluster_group_entry (g0 : Int × Int) (gs : List (Int × Int))
    (p : AutoParams) : Option GroupEntry :=
  let minh := group_min_h g0 gs
  let maxh := group_max_h g0 gs
  let minw := group_min_w g0 gs
  let maxw := group_max_w g0 gs
  let calc_minh := minh - add_margin_to_size minh p.margin_percent p.margin_px_limit
  let calc_maxh := maxh + add_margin_to_size maxh p.margin_percent p.margin_px_limit
  let calc_minw := minw - add_margin_to_size minw p.margin_percent p.margin_px_limit
  let calc_maxw := maxw + add_margin_to_size maxw p.margin_percent p.margin_px_limit
  if calc_minh = 0 ∨ calc_maxh = 0 then none
  else
    some
      { hRange := (calc_minh, calc_maxh)
        wRange := (calc_minw, calc_maxw)
        ratio := sortPairQ ((calc_minw : Rat) / (calc_minh : Rat))
          ((calc_maxw : Rat) / (calc_maxh : Rat))
        ktype :=
          if p.use_rect_kernel_for_small ∧ maxh ≤ p.rect_kernel_threshold ∧
              maxw ≤ p.rect_kernel_threshold
          then "rectangles" else "lines" }

/-- Error raised by sklearn's input validation inside `fit_predict` when
the measurement sample is empty; it propagates out of `autoconfigure`
before anything on the object is touched. -/
def emptySampleError : String :=
  "ValueError: Found array with 0 sample(s)"

/-- Error raised while processing a degenerate cluster group (`min` of an
empty group, or a zero padded height in the ratio division); it also
propagates before any field assignment. -/
def emptyGroupError : String :=
  "ValueError: degenerate cluster group"

/-- `autoconfigure`: fails on an empty sample (sklearn input validation);
otherwise partitions the points by the cluster labels `0..max(labels)`
supplied by the external DBSCAN call, computes one `GroupEntry` per group,
and only then overwrites `width_range`, `height_range`, `wh_ratio_range`
and `morph_kernels_type` and recomputes `num_iterations`.  An error
carries the unmodified object, as the Python exception does. -/
def autoconfigure (c : PipelinesConfig) (box_sizes : List (Int × Int))
    (labels : List Nat) (p : AutoParams) :
    Except (String × PipelinesConfig) PipelinesConfig :=
  match box_sizes with
  | [] => .error (emptySampleError, c)
  | _ :: _ =>
    match ((List.range ((labels.foldl max 0) + 1)).map fun i =>
        (box_sizes.zip labels).filterMap fun pl =>
          if pl.2 = i then some pl.1 else none).mapM (fun g =>
        match g with
        | [] => none
        | a :: t => cluster_group_entry a t p) with
    | none => .error (emptyGroupError, c)
    | some entries =>
      .ok (update_num_iterations
        { c with
          width_range := .list (entries.map fun e => .intPair e.wRange.1 e.wRange.2)
          height_range := .list (entries.map fun e => .intPair e.hRange.1 e.hRange.2)
          wh_ratio_range := .list (entries.map fun e => .ratList2 e.ratio.1 e.ratio.2)
          morph_kernels_type := .list (entries.map fun e => .str e.ktype) })

/-- The configurations reachable through the public construction paths:
plain construction, construction from a file, a successful calibration,
or a load into a reachable configuration. -/
inductive Reachable : PipelinesConfig → Prop where
  | construct : Reachable construct
  | construct_load (d : List (String × PyVal)) : Reachable (construct_with_yaml d)
  | load (c : PipelinesConfig) (d : List (String × PyVal)) :
      Reachable c → Reachable (load_yaml c d)
  | calibrate (c c' : PipelinesConfig) (box_sizes : List (Int × Int))
      (labels : List Nat) (p : AutoParams) :
      Reachable c → autoconfigure c box_sizes labels p = .ok c' → Reachable c'

/-- A configuration whose stored `num_iterations` agrees with the value
`update_num_iterations` would compute from its fields. -/
def num_iterations_consistent (c : PipelinesConfig) : Prop :=
  c.num_iterations = computed_num_iterations c

/-- Default configuration with `height_range` widened to two entries, as in
the broadcast-correctness example of the spec. -/
def exampleC3 : PipelinesConfig :=
  { construct with height_range := .list [.intPair 50 60, .intPair 60 70] }

/-- The single parameter tuple produced for the default configuration, in
`variables_list` order. -/
def defaultTuple : List Item :=
  [.intPair 40 50, .intPair 50 60, .ratPair (0.65 : Rat) (0.1 : Rat),
   .int 0, .intPair 2 2, .int 10, .int 80, .str "lines", .int 1]

/-- The zip iterator returned for the default configuration, freshly
created: one tuple, not yet consumed. -/
def defaultZip : ZipIter := ⟨[defaultTuple]⟩

/-- Default keyword parameters of `autoconfigure`:
`margin_percent=0.1, margin_px_limit=5, use_rect_kernel_for_small=False,
rect_kernel_threshold=30`. -/
def pDefault : AutoParams := ⟨1/10, 5, false, 30⟩

/-- Default parameters with `use_rect_kernel_for_small=True`. -/
def pRect : AutoParams := ⟨1/10, 5, true, 30⟩

/-- Entry computed for the group {(20,30), (22,33)} under the default
parameters: margins 2 on every bound, height range (18,24). -/
def entryC6 : GroupEntry :=
  ⟨(18, 24), (27, 36), (3/2, 3/2), "lines"⟩

/-- Entry computed for the singleton group {(25,28)} with the rectangle
kernel enabled: both maxima are at most 30, so "rectangles" is chosen. -/
def entryC7a : GroupEntry :=
  ⟨(23, 27), (26, 30), (10/9, 26/23), "rectangles"⟩

/-- Entry computed for the singleton group {(35,28)} with the rectangle
kernel enabled: max height 35 exceeds 30, so "lines" is chosen. -/
def entryC7b : GroupEntry :=
  ⟨(32, 38), (26, 30), (15/19, 13/16), "lines"⟩

/-- Entry computed for the group {(10,20), (20,25)} under the default
parameters: padded bounds (9,22)x(18,27), ratio pair sorted from
(18/9, 27/22); the pointwise ratios of the two measurements would have
been 2 and 5/4 instead. -/
def entryC8 : GroupEntry :=
  ⟨(9, 22), (18, 27), (27/22, 2), "lines"⟩

/-- Default configuration with `width_range` set to the empty list. -/
def exampleC10 : PipelinesConfig :=
  { construct with width_range := .list [] }

section Helpers

/-- Recomputing the count leaves `width_range` unchanged. -/
@[simp] theorem update_width_range (c : PipelinesConfig) :
    (update_num_iterations c).width_range = c.width_range := by
  simp only [update_num_iterations]

/-- Recomputing the count leaves `height_range` unchanged. -/
@[simp] theorem update_height_range (c : PipelinesConfig) :
    (update_num_iterations c).height_range = c.height_range := by
  simp only [update_num_iterations]

/-- Recomputing the count leaves `wh_ratio_range` unchanged. -/
@[simp] theorem update_wh_ratio_range (c : PipelinesConfig) :
    (update_num_iterations c).wh_ratio_range = c.wh_ratio_range := by
  simp only [update_num_iterations]

/-- Recomputing the count leaves `scaling_factors` unchanged. -/
@[simp] theorem update_scaling_factors (c : PipelinesConfig) :
    (update_num_iterations c).scaling_factors = c.scaling_factors := by
  simp only [update_num_iterations]

/-- Recomputing the count leaves `thickness` unchanged. -/
@[simp] theorem update_thickness (c : PipelinesConfig) :
    (update_num_iterations c).thickness = c.thickness := by
  simp only [update_num_iterations]

/-- Recomputing the count leaves `dilation_kernel` unchanged. -/
@[simp] theorem update_dilation_kernel (c : PipelinesConfig) :
    (update_num_iterations c).dilation_kernel = c.dilation_kernel := by
  simp only [update_num_iterations]

/-- Recomputing the count leaves `dilation_iterations` unchanged. -/
@[simp] theorem update_dilation_iterations (c : PipelinesConfig) :
    (update_num_iterations c).dilation_iterations = c.dilation_iterations := by
  simp only [update_num_iterations]

/-- Recomputing the count leaves `morph_kernels_type` unchanged. -/
@[simp] theorem update_morph_kernels_type (c : PipelinesConfig) :
    (update_num_iterations c).morph_kernels_type = c.morph_kernels_type := by
  simp only [update_num_iterations]

/-- Recomputing the count leaves `morph_kernels_thickness` unchanged. -/
@[simp] theorem update_morph_kernels_thickness (c : PipelinesConfig) :
    (update_num_iterations c).morph_kernels_thickness =
      c.morph_kernels_thickness := by
  simp only [update_num_iterations]

/-- Recomputing the count leaves `group_size_range` unchanged. -/
@[simp] theorem update_group_size_range (c : PipelinesConfig) :
    (update_num_iterations c).group_size_range = c.group_size_range := by
  simp only [update_num_iterations]

/-- Recomputing the count leaves `vertical_max_distance` unchanged. -/
@[simp] theorem update_vertical_max_distance (c : PipelinesConfig) :
    (update_num_iterations c).vertical_max_distance =
      c.vertical_max_distance := by
  simp only [update_num_iterations]

/-- Recomputing the count leaves `horizontal_max_distance` unchanged. -/
@[simp] theorem update_horizontal_max_distance (c : PipelinesConfig) :
    (update_num_iterations c).horizontal_max_distance =
      c.horizontal_max_distance := by
  simp only [update_num_iterations]

/-- After `update_num_iterations` the stored count is the computed one. -/
@[simp] theorem update_num_iterations_val (c : PipelinesConfig) :
    (update_num_iterations c).num_iterations = computed_num_iterations c := by
  simp only [update_num_iterations]

/-- The structural maximum agrees with `max`. -/
theorem pyMaxNat_eq_max : ∀ (a b : Nat), pyMaxNat a b = max a b := by
  intro a
  induction a with
  | zero => intro b; simp [pyMaxNat]
  | succ n ih =>
    intro b
    cases b with
    | zero => simp [pyMaxNat]
    | succ m => rw [pyMaxNat, ih m, Nat.succ_max_succ]

/-- The running maximum of the `update_num_iterations` loop never drops
below its starting value. -/
theorem foldl_max_le_init :
    ∀ (l : List PyVal) (i : Nat),
      i ≤ l.foldl (fun acc v => pyMaxNat acc (pyLen v)) i := by
  intro l
  induction l with
  | nil => intro i; exact le_refl i
  | cons v t ih =>
    intro i
    refine le_trans ?_ (ih (pyMaxNat i (pyLen v)))
    rw [pyMaxNat_eq_max]
    exact le_max_left i (pyLen v)

/-- Every scanned field's length bounds the computed maximum. -/
theorem pyLen_le_foldl_max :
    ∀ (l : List PyVal) (i : Nat) (v : PyVal), v ∈ l →
      pyLen v ≤ l.foldl (fun acc w => pyMaxNat acc (pyLen w)) i := by
  intro l
  induction l with
  | nil => intro i v hv; cases hv
  | cons w t ih =>
    intro i v hv
    rcases List.mem_cons.mp hv with h | h
    · subst h
      refine le_trans ?_ (foldl_max_le_init t (pyMaxNat i (pyLen v)))
      rw [pyMaxNat_eq_max]
      exact le_max_right i (pyLen v)
    · exact ih (pyMaxNat i (pyLen w)) v h

/-- The computed iteration count is always at least 1. -/
theorem one_le_computed_num_iterations (c : PipelinesConfig) :
    1 ≤ computed_num_iterations c :=
  foldl_max_le_init (trackedList c) 1

/-- Every iterated field's length bounds the computed iteration count. -/
theorem pyLen_le_computed (c : PipelinesConfig) (v : PyVal)
    (hv : v ∈ iterFieldsList c) : pyLen v ≤ computed_num_iterations c := by
  apply pyLen_le_foldl_max (trackedList c) 1 v
  simp only [iterFieldsList, List.mem_cons, List.not_mem_nil, or_false] at hv
  rcases hv with h | h | h | h | h | h | h | h | h <;>
    simp [trackedList, h]

/-- Mapping a constant function over `List.range n` replicates the value. -/
theorem range_map_const {α : Type} (n : Nat) (a : α) :
    (List.range n).map (fun _ => a) = List.replicate n a := by
  induction n with
  | zero => rfl
  | succ n ih =>
    rw [List.range_succ_eq_map, List.map_cons, List.map_map,
      List.replicate_succ, ← ih]
    congr 1

/-- A list is the range-indexed map of its own `getD` lookups. -/
theorem list_eq_range_map_getD (l : List Item) :
    (List.range l.length).map (fun i => l.getD i default) = l := by
  induction l with
  | nil => rfl
  | cons a t ih =>
    rw [List.length_cons, List.range_succ_eq_map, List.map_cons, List.map_map]
    have hm : List.map ((fun i => (a :: t).getD i default) ∘ Nat.succ)
        (List.range t.length) = List.map (fun i => t.getD i default)
        (List.range t.length) := List.map_congr_left fun i _ => rfl
    rw [hm, ih, List.getD_cons_zero]

/-- Lookup in a range-indexed map evaluates the function in bounds. -/
theorem getD_range_map {α : Type} [Inhabited α] (f : Nat → α) (n i : Nat)
    (h : i < n) : ((List.range n).map f).getD i default = f i := by
  rw [List.getD_eq_getElem?_getD, List.getElem?_map, List.getElem?_range h]
  rfl

/-- In-bounds `getD` lookups are members of the list. -/
theorem getD_mem_of_lt :
    ∀ (l : List Item) (i : Nat), i < l.length → l.getD i default ∈ l := by
  intro l
  induction l with
  | nil => intro i h; cases h
  | cons a t ih =>
    intro i h
    cases i with
    | zero => simp [List.getD_cons_zero]
    | succ j =>
      rw [List.getD_cons_succ]
      exact List.mem_cons_of_mem a (ih j (Nat.lt_of_succ_lt_succ h))

/-- A list of length `n + 1` splits into a head and an `n`-element tail. -/
theorem length_succ_cons {α : Type} (l : List α) (n : Nat)
    (h : l.length = n + 1) : ∃ a t, l = a :: t ∧ t.length = n := by
  cases l with
  | nil => simp at h
  | cons a t => exact ⟨a, t, rfl, by simpa using h⟩

end Helpers

section ExpansionLemmas

/-- Closed form of `__conv_to_list` on a usable field: the broadcast list
of length `max_items`, read off by `broadcastAt`. -/
theorem conv_to_list_eq (v : PyVal) (n : Nat) (hne : nonEmptyVal v = true)
    (hlen : pyLen v ≤ n) :
    conv_to_list v n = some ((List.range n).map (broadcastAt n v)) := by
  cases v with
  | item a =>
    simp only [conv_to_list, Option.some.injEq]
    have hmap : (List.range n).map (broadcastAt n (PyVal.item a)) =
        (List.range n).map (fun _ => a) :=
      List.map_congr_left fun i _ => rfl
    rw [hmap, range_map_const]
  | list l =>
    cases l with
    | nil => simp [nonEmptyVal] at hne
    | cons a t =>
      by_cases hc : n ≤ (a :: t).length
      · have hlen2 : (a :: t).length = n :=
          le_antisymm (by simpa [pyLen] using hlen) hc
        simp only [conv_to_list, if_pos hc, Option.some.injEq]
        have hmap : (List.range n).map (broadcastAt n (PyVal.list (a :: t))) =
            (List.range n).map (fun i => (a :: t).getD i default) := by
          apply List.map_congr_left
          intro i _
          simp only [broadcastAt]
          rw [if_pos hc]
        rw [hmap, ← hlen2]
        exact (list_eq_range_map_getD (a :: t)).symm
      · simp only [conv_to_list, if_neg hc, Option.some.injEq]
        have hmap : (List.range n).map (broadcastAt n (PyVal.list (a :: t))) =
            (List.range n).map (fun _ => a) := by
          apply List.map_congr_left
          intro i _
          simp only [broadcastAt]
          rw [if_neg hc, List.getD_cons_zero]
        rw [hmap, range_map_const]

/-- Python `zip` of nine equal-length lists, in closed form: one tuple per
index, each holding the nine entries at that index. -/
theorem pyZip9_eq :
    ∀ (n : Nat) (l1 l2 l3 l4 l5 l6 l7 l8 l9 : List Item),
      l1.length = n → l2.length = n → l3.length = n → l4.length = n →
      l5.length = n → l6.length = n → l7.length = n → l8.length = n →
      l9.length = n →
      pyZip9 l1 l2 l3 l4 l5 l6 l7 l8 l9 =
        (List.range n).map (fun i =>
          [l1.getD i default, l2.getD i default, l3.getD i default,
           l4.getD i default, l5.getD i default, l6.getD i default,
           l7.getD i default, l8.getD i default, l9.getD i default]) := by
  intro n
  induction n with
  | zero =>
    intro l1 l2 l3 l4 l5 l6 l7 l8 l9 h1 h2 h3 h4 h5 h6 h7 h8 h9
    rw [List.length_eq_zero] at h1 h2 h3 h4 h5 h6 h7 h8 h9
    subst h1 h2 h3 h4 h5 h6 h7 h8 h9
    rfl
  | succ n ih =>
    intro l1 l2 l3 l4 l5 l6 l7 l8 l9 h1 h2 h3 h4 h5 h6 h7 h8 h9
    obtain ⟨a1, t1, rfl, ht1⟩ := length_succ_cons l1 n h1
    obtain ⟨a2, t2, rfl, ht2⟩ := length_succ_cons l2 n h2
    obtain ⟨a3, t3, rfl, ht3⟩ := length_succ_cons l3 n h3
    obtain ⟨a4, t4, rfl, ht4⟩ := length_succ_cons l4 n h4
    obtain ⟨a5, t5, rfl, ht5⟩ := length_succ_cons l5 n h5
    obtain ⟨a6, t6, rfl, ht6⟩ := length_succ_cons l6 n h6
    obtain ⟨a7, t7, rfl, ht7⟩ := length_succ_cons l7 n h7
    obtain ⟨a8, t8, rfl, ht8⟩ := length_succ_cons l8 n h8
    obtain ⟨a9, t9, rfl, ht9⟩ := length_succ_cons l9 n h9
    rw [List.range_succ_eq_map, List.map_cons, List.map_map]
    have hm : List.map ((fun i =>
        [(a1 :: t1).getD i default, (a2 :: t2).getD i default,
         (a3 :: t3).getD i default, (a4 :: t4).getD i default,
         (a5 :: t5).getD i default, (a6 :: t6).getD i default,
         (a7 :: t7).getD i default, (a8 :: t8).getD i default,
         (a9 :: t9).getD i default]) ∘ Nat.succ) (List.range n) =
        List.map (fun i =>
          [t1.getD i default, t2.getD i default, t3.getD i default,
           t4.getD i default, t5.getD i default, t6.getD i default,
           t7.getD i default, t8.getD i default, t9.getD i default])
          (List.range n) := List.map_congr_left fun i _ => rfl
    rw [hm, ← ih t1 t2 t3 t4 t5 t6 t7 t8 t9 ht1 ht2 ht3 ht4 ht5 ht6 ht7 ht8 ht9]
    rfl

/-- Master lemma for the expansion: when no iterated field is an empty
list, `variables_as_iterators` succeeds and returns the object with the
recomputed count together with a fresh iterator over `expandRows`. -/
theorem vai_eq (c : PipelinesConfig) (hok : listOk c) :
    variables_as_iterators c =
      some (update_num_iterations c, ⟨expandRows c⟩) := by
  have e1 := conv_to_list_eq c.width_range (computed_num_iterations c)
    (hok _ (by simp [iterFieldsList]))
    (pyLen_le_computed c _ (by simp [iterFieldsList]))
  have e2 := conv_to_list_eq c.height_range (computed_num_iterations c)
    (hok _ (by simp [iterFieldsList]))
    (pyLen_le_computed c _ (by simp [iterFieldsList]))
  have e3 := conv_to_list_eq c.wh_ratio_range (computed_num_iterations c)
    (hok _ (by simp [iterFieldsList]))
    (pyLen_le_computed c _ (by simp [iterFieldsList]))
  have e4 := conv_to_list_eq c.dilation_iterations (computed_num_iterations c)
    (hok _ (by simp [iterFieldsList]))
    (pyLen_le_computed c _ (by simp [iterFieldsList]))
  have e5 := conv_to_list_eq c.dilation_kernel (computed_num_iterations c)
    (hok _ (by simp [iterFieldsList]))
    (pyLen_le_computed c _ (by simp [iterFieldsList]))
  have e6 := conv_to_list_eq c.vertical_max_distance (computed_num_iterations c)
    (hok _ (by simp [iterFieldsList]))
    (pyLen_le_computed c _ (by simp [iterFieldsList]))
  have e7 := conv_to_list_eq c.horizontal_max_distance (computed_num_iterations c)
    (hok _ (by simp [iterFieldsList]))
    (pyLen_le_computed c _ (by simp [iterFieldsList]))
  have e8 := conv_to_list_eq c.morph_kernels_type (computed_num_iterations c)
    (hok _ (by simp [iterFieldsList]))
    (pyLen_le_computed c _ (by simp [iterFieldsList]))
  have e9 := conv_to_list_eq c.morph_kernels_thickness (computed_num_iterations c)
    (hok _ (by simp [iterFieldsList]))
    (pyLen_le_computed c _ (by simp [iterFieldsList]))
  simp only [variables_as_iterators, update_width_range, update_height_range,
    update_wh_ratio_range, update_dilation_iterations, update_dilation_kernel,
    update_vertical_max_distance, update_horizontal_max_distance,
    update_morph_kernels_type, update_morph_kernels_thickness,
    update_num_iterations_val]
  rw [e1, e2, e3, e4, e5, e6, e7, e8, e9]
  simp only [Option.bind, Option.some.injEq, Prod.mk.injEq, ZipIter.mk.injEq,
    eq_self_iff_true, true_and]
  rw [pyZip9_eq (computed_num_iterations c) _ _ _ _ _ _ _ _ _
    (by simp) (by simp) (by simp) (by simp) (by simp)
    (by simp) (by simp) (by simp) (by simp)]
  simp only [expandRows, iterFieldsList, List.map_cons, List.map_nil]
  apply List.map_congr_left
  intro i hi
  have hilt : i < computed_num_iterations c := List.mem_range.mp hi
  rw [getD_range_map _ _ _ hilt, getD_range_map _ _ _ hilt,
    getD_range_map _ _ _ hilt, getD_range_map _ _ _ hilt,
    getD_range_map _ _ _ hilt, getD_range_map _ _ _ hilt,
    getD_range_map _ _ _ hilt, getD_range_map _ _ _ hilt,
    getD_range_map _ _ _ hilt]

/-- Broadcasting a usable field at an in-range index yields one of the
field's own alternatives (or its single value). -/
theorem broadcast_resolved (v : PyVal) (n i : Nat)
    (hne : nonEmptyVal v = true) (hi : i < n) :
    resolvedFrom v (broadcastAt n v i) := by
  cases v with
  | item a => rfl
  | list l =>
    cases l with
    | nil => simp [nonEmptyVal] at hne
    | cons a t =>
      simp only [broadcastAt, resolvedFrom]
      by_cases hc : n ≤ (a :: t).length
      · rw [if_pos hc]
        exact getD_mem_of_lt (a :: t) i (lt_of_lt_of_le hi hc)
      · rw [if_neg hc]
        exact getD_mem_of_lt (a :: t) 0 (Nat.succ_pos t.length)

/-- After any `update_num_iterations`, the stored count agrees with the
one recomputed from the fields. -/
theorem consistent_update (c : PipelinesConfig) :
    num_iterations_consistent (update_num_iterations c) := by
  unfold num_iterations_consistent
  rw [update_num_iterations_val]
  unfold computed_num_iterations
  have : trackedList (update_num_iterations c) = trackedList c := by
    simp [trackedList]
  rw [this]

/-- A successful `autoconfigure` ends in `update_num_iterations`. -/
theorem autoconfigure_ok_shape (c c' : PipelinesConfig)
    (box_sizes : List (Int × Int)) (labels : List Nat) (p : AutoParams)
    (h : autoconfigure c box_sizes labels p = .ok c') :
    ∃ c₀, c' = update_num_iterations c₀ := by
  rw [autoconfigure.eq_def] at h
  split at h
  · cases h
  · split at h
    · cases h
    · exact ⟨_, (Except.ok.inj h).symm⟩

/-- Every reachable configuration has a consistent stored count. -/
theorem reachable_consistent (c : PipelinesConfig) (h : Reachable c) :
    num_iterations_consistent c := by
  induction h with
  | construct => exact consistent_update baseDefaults
  | construct_load d => exact consistent_update _
  | load c d _ _ => exact consistent_update _
  | calibrate c c' box_sizes labels p _ hok _ =>
    obtain ⟨c₀, rfl⟩ := autoconfigure_ok_shape c c' box_sizes labels p hok
    exact consistent_update c₀

end ExpansionLemmas

section CalibrationLemmas

/-- The source's cap `calc_margin if calc_margin < limit else limit` is the
binary minimum. -/
theorem ite_lt_eq_min (a b : Int) : (if a < b then a else b) = min a b := by
  rw [min_def]
  split_ifs <;> omega

/-- On non-negative sizes and percentages, `__add_margin_to_size` computes
`min(margin_px_limit, floor(size * margin_percent))`: Python `int()`
truncation coincides with the floor there. -/
theorem add_margin_eq (size : Int) (mp : Rat) (ml : Int) (hs : 0 ≤ size)
    (hmp : 0 ≤ mp) :
    add_margin_to_size size mp ml = min ml (Int.floor ((size : Rat) * mp)) := by
  have hq : (0 : Rat) ≤ (size : Rat) * mp :=
    mul_nonneg (by exact_mod_cast hs) hmp
  simp only [add_margin_to_size, pyInt, if_pos hq]
  rw [ite_lt_eq_min, min_comm]

/-- The entry computed for one cluster group, with every component spelled
out in terms of the group bounds and `__add_margin_to_size`. -/
theorem cluster_group_entry_some (g0 : Int × Int) (gs : List (Int × Int))
    (p : AutoParams) (e : GroupEntry)
    (he : cluster_group_entry g0 gs p = some e) :
    e.hRange = (group_min_h g0 gs -
        add_margin_to_size (group_min_h g0 gs) p.margin_percent p.margin_px_limit,
      group_max_h g0 gs +
        add_margin_to_size (group_max_h g0 gs) p.margin_percent p.margin_px_limit) ∧
    e.wRange = (group_min_w g0 gs -
        add_margin_to_size (group_min_w g0 gs) p.margin_percent p.margin_px_limit,
      group_max_w g0 gs +
        add_margin_to_size (group_max_w g0 gs) p.margin_percent p.margin_px_limit) ∧
    e.ratio = sortPairQ
      (((group_min_w g0 gs -
          add_margin_to_size (group_min_w g0 gs) p.margin_percent p.margin_px_limit : Int) : Rat) /
        ((group_min_h g0 gs -
          add_margin_to_size (group_min_h g0 gs) p.margin_percent p.margin_px_limit : Int) : Rat))
      (((group_max_w g0 gs +
          add_margin_to_size (group_max_w g0 gs) p.margin_percent p.margin_px_limit : Int) : Rat) /
        ((group_max_h g0 gs +
          add_margin_to_size (group_max_h g0 gs) p.margin_percent p.margin_px_limit : Int) : Rat)) ∧
    e.ktype = (if p.use_rect_kernel_for_small ∧
        group_max_h g0 gs ≤ p.rect_kernel_threshold ∧
        group_max_w g0 gs ≤ p.rect_kernel_threshold
      then "rectangles" else "lines") := by
  simp only [cluster_group_entry] at he
  split at he
  · cases he
  · obtain rfl := Option.some.inj he
    exact ⟨rfl, rfl, rfl, rfl⟩

end CalibrationLemmas

section PersistenceLemmas

/-- `setattr` with key `width_range` updates exactly that attribute. -/
@[simp] theorem setattr_width_range (c : PipelinesConfig) (v : PyVal) :
    setattrConfig c "width_range" v = { c with width_range := v } := rfl

/-- `setattr` with key `height_range` updates exactly that attribute. -/
@[simp] theorem setattr_height_range (c : PipelinesConfig) (v : PyVal) :
    setattrConfig c "height_range" v = { c with height_range := v } := rfl

/-- `setattr` with key `wh_ratio_range` updates exactly that attribute. -/
@[simp] theorem setattr_wh_ratio_range (c : PipelinesConfig) (v : PyVal) :
    setattrConfig c "wh_ratio_range" v = { c with wh_ratio_range := v } := rfl

/-- `setattr` with key `scaling_factors` updates exactly that attribute. -/
@[simp] theorem setattr_scaling_factors (c : PipelinesConfig) (v : PyVal) :
    setattrConfig c "scaling_factors" v = { c with scaling_factors := v } := rfl

/-- `setattr` with key `thickness` updates exactly that attribute. -/
@[simp] theorem setattr_thickness (c : PipelinesConfig) (v : PyVal) :
    setattrConfig c "thickness" v = { c with thickness := v } := rfl

/-- `setattr` with key `dilation_kernel` updates exactly that attribute. -/
@[simp] theorem setattr_dilation_kernel (c : PipelinesConfig) (v : PyVal) :
    setattrConfig c "dilation_kernel" v = { c with dilation_kernel := v } := rfl

/-- `setattr` with key `dilation_iterations` updates exactly that attribute. -/
@[simp] theorem setattr_dilation_iterations (c : PipelinesConfig) (v : PyVal) :
    setattrConfig c "dilation_iterations" v =
      { c with dilation_iterations := v } := rfl

/-- `setattr` with key `morph_kernels_type` updates exactly that attribute. -/
@[simp] theorem setattr_morph_kernels_type (c : PipelinesConfig) (v : PyVal) :
    setattrConfig c "morph_kernels_type" v =
      { c with morph_kernels_type := v } := rfl

/-- `setattr` with key `morph_kernels_thickness` updates exactly that
attribute. -/
@[simp] theorem setattr_morph_kernels_thickness (c : PipelinesConfig) (v : PyVal) :
    setattrConfig c "morph_kernels_thickness" v =
      { c with morph_kernels_thickness := v } := rfl

/-- `setattr` with key `group_size_range` updates exactly that attribute. -/
@[simp] theorem setattr_group_size_range (c : PipelinesConfig) (v : PyVal) :
    setattrConfig c "group_size_range" v =
      { c with group_size_range := v } := rfl

/-- `setattr` with key `vertical_max_distance` updates exactly that
attribute. -/
@[simp] theorem setattr_vertical_max_distance (c : PipelinesConfig) (v : PyVal) :
    setattrConfig c "vertical_max_distance" v =
      { c with vertical_max_distance := v } := rfl

/-- `setattr` with key `horizontal_max_distance` updates exactly that
attribute. -/
@[simp] theorem setattr_horizontal_max_distance (c : PipelinesConfig) (v : PyVal) :
    setattrConfig c "horizontal_max_distance" v =
      { c with horizontal_max_distance := v } := rfl

/-- `setattr` with key `num_iterations` stores the loaded count. -/
@[simp] theorem setattr_num_iterations (c : PipelinesConfig) (v : PyVal) :
    setattrConfig c "num_iterations" v =
      { c with num_iterations := pyToNat v } := rfl

/-- Binding a failed option is a failure. -/
theorem obind_none {α β : Type} (f : α → Option β) :
    Option.bind (none : Option α) f = none := rfl

/-- Binding into a constant failure is a failure. -/
theorem obind_const_none {α β : Type} (x : Option α) :
    Option.bind x (fun _ => (none : Option β)) = none := by
  cases x <;> rfl

end PersistenceLemmas

section Claims

/-- C1.  Round-trip persistence: for every `PipelinesConfig` reachable via
construction, calibration, or a prior load, `save_yaml` followed by
`load_yaml` of the dump (into any configuration) reproduces the original
in every recognized field and in the derived `num_iterations`. -/
theorem c1_save_load_roundtrip (P : PipelinesConfig) (hP : Reachable P)
    (c0 : PipelinesConfig) : load_yaml c0 (save_yaml P) = P := by
  have hw : P.num_iterations = computed_num_iterations P :=
    reachable_consistent P hP
  refine PipelinesConfig.ext ?_ ?_ ?_ ?_ ?_ ?_ ?_ ?_ ?_ ?_ ?_ ?_ ?_ <;>
    simp only [load_yaml, save_yaml, List.foldl, setattr_width_range,
      setattr_height_range, setattr_wh_ratio_range, setattr_scaling_factors,
      setattr_thickness, setattr_dilation_kernel, setattr_dilation_iterations,
      setattr_morph_kernels_type, setattr_morph_kernels_thickness,
      setattr_group_size_range, setattr_vertical_max_distance,
      setattr_horizontal_max_distance, setattr_num_iterations,
      update_width_range, update_height_range, update_wh_ratio_range,
      update_scaling_factors, update_thickness, update_dilation_kernel,
      update_dilation_iterations, update_morph_kernels_type,
      update_morph_kernels_thickness, update_group_size_range,
      update_vertical_max_distance, update_horizontal_max_distance,
      update_num_iterations_val]
  rw [hw]
  simp only [computed_num_iterations, trackedList]

/-- C1 witness: the default configuration round-trips through
`save_yaml`/`load_yaml`. -/
theorem c1_witness : load_yaml construct (save_yaml construct) = construct :=
  c1_save_load_roundtrip construct Reachable.construct construct

/-- C2.  Broadcast completeness: whenever no iterated field is an empty
list, `variables_as_iterators` succeeds and, on first consumption, the
returned iterator yields exactly `num_iterations` tuples; component-wise,
each tuple pairs the nine iterated fields with a single resolved value
drawn from that field (one of its listed alternatives, or its single
value), never the multi-valued list itself. -/
theorem c2_broadcast_completeness (c : PipelinesConfig) (hok : listOk c) :
    ∃ it : ZipIter,
      variables_as_iterators c = some (update_num_iterations c, it) ∧
      it.remaining.length = (update_num_iterations c).num_iterations ∧
      ∀ t ∈ it.remaining, List.Forall₂ resolvedFrom (iterFieldsList c) t := by
  refine ⟨⟨expandRows c⟩, vai_eq c hok, ?_, ?_⟩
  · simp only [expandRows, List.length_map, List.length_range,
      update_num_iterations_val]
  · show ∀ t ∈ expandRows c, List.Forall₂ resolvedFrom (iterFieldsList c) t
    simp only [expandRows, List.forall_mem_map]
    intro i hi
    rw [List.forall₂_map_right_iff, List.forall₂_same]
    intro v hv
    exact broadcast_resolved v _ i (hok v hv) (List.mem_range.mp hi)

/-- C2 witness: the default configuration satisfies the precondition and
expands to exactly its `num_iterations` fully resolved tuples. -/
theorem c2_witness :
    listOk construct ∧
    ∃ it : ZipIter,
      variables_as_iterators construct =
        some (update_num_iterations construct, it) ∧
      it.remaining.length = (update_num_iterations construct).num_iterations ∧
      ∀ t ∈ it.remaining,
        List.Forall₂ resolvedFrom (iterFieldsList construct) t :=
  ⟨by decide, c2_broadcast_completeness construct (by decide)⟩

/-- C3.  Broadcast policy (Invariant I2): a non-list value is replicated
`max_items` times; a non-empty list shorter than `max_items` contributes
its first element replicated; a list of length at least `max_items` is
used as-is (trailing extras are ignored by the zip, not an error); and on
the spec's concrete example (`width_range=[(40,50)]`,
`height_range=[(50,60),(60,70)]`, two iterations) the two emitted tuples
carry `width_range=(40,50)` in both and `height_range=(50,60)` then
`(60,70)`. -/
theorem c3_broadcast_policy :
    (∀ (a : Item) (n : Nat),
      conv_to_list (.item a) n = some (List.replicate n a)) ∧
    (∀ (a : Item) (t : List Item) (n : Nat), (a :: t).length < n →
      conv_to_list (.list (a :: t)) n = some (List.replicate n a)) ∧
    (∀ (l : List Item) (n : Nat), n ≤ l.length →
      conv_to_list (.list l) n = some l) ∧
    variables_as_iterators exampleC3 =
      some (update_num_iterations exampleC3,
        ⟨[[.intPair 40 50, .intPair 50 60, .ratPair (0.65 : Rat) (0.1 : Rat),
           .int 0, .intPair 2 2, .int 10, .int 80, .str "lines", .int 1],
          [.intPair 40 50, .intPair 60 70, .ratPair (0.65 : Rat) (0.1 : Rat),
           .int 0, .intPair 2 2, .int 10, .int 80, .str "lines", .int 1]]⟩) ∧
    (update_num_iterations exampleC3).num_iterations = 2 := by
  refine ⟨fun a n => rfl, fun a t n h => ?_, fun l n h => ?_, rfl, rfl⟩
  · simp only [conv_to_list]
    rw [if_neg (by omega)]
  · simp only [conv_to_list]
    rw [if_pos h]

/-- C3 witness: the three broadcast cases at concrete inputs — a non-list
value replicated, a length-1 list's first element replicated to length 3,
and a length-2 list used as-is at target length 2. -/
theorem c3_witness :
    conv_to_list (.item (.int 5)) 2 = some (List.replicate 2 (Item.int 5)) ∧
    conv_to_list (.list [.int 7]) 3 = some (List.replicate 3 (Item.int 7)) ∧
    conv_to_list (.list [.int 1, .int 2]) 2 = some [Item.int 1, Item.int 2] :=
  ⟨c3_broadcast_policy.1 (.int 5) 2,
   c3_broadcast_policy.2.1 (.int 7) [] 3 (by decide),
   c3_broadcast_policy.2.2.1 [.int 1, .int 2] 2 (by decide)⟩

/-- C4 counterexample: the value returned by `variables_as_iterators` is a
`zip` object, not a restartable sequence.  For the default configuration
(`num_iterations = 1`), the first traversal yields its one tuple but a
second traversal of the same returned object yields zero tuples, not the
same `num_iterations` tuples again. -/
theorem c4_counterexample :
    variables_as_iterators construct =
      some (update_num_iterations construct, defaultZip) ∧
    (update_num_iterations construct).num_iterations = 1 ∧
    defaultZip.consume.1.length = 1 ∧
    defaultZip.consume.2.consume.1.length = 0 :=
  ⟨rfl, rfl, rfl, rfl⟩

/-- C4 as amended: a single call to `variables_as_iterators` returns a
one-shot sequence that is a pure projection (`expandRows`) of the field
values captured at call time; its first full traversal yields exactly
`num_iterations` tuples, and a second traversal of the same returned
object yields the empty sequence (a fresh call is needed for a fresh
sequence). -/
theorem c4_one_shot_projection (c : PipelinesConfig) (hok : listOk c) :
    ∃ it : ZipIter,
      variables_as_iterators c = some (update_num_iterations c, it) ∧
      it.remaining = expandRows c ∧
      it.consume.1.length = (update_num_iterations c).num_iterations ∧
      it.consume.2.consume.1 = [] := by
  refine ⟨⟨expandRows c⟩, vai_eq c hok, ?_, ?_, ?_⟩
  · rfl
  · simp only [ZipIter.consume, expandRows, List.length_map,
      List.length_range, update_num_iterations_val]
  · rfl

/-- C4 witness: the amended one-shot behaviour at the default
configuration. -/
theorem c4_witness :
    ∃ it : ZipIter,
      variables_as_iterators construct =
        some (update_num_iterations construct, it) ∧
      it.remaining = expandRows construct ∧
      it.consume.1.length = (update_num_iterations construct).num_iterations ∧
      it.consume.2.consume.1 = [] :=
  c4_one_shot_projection construct (by decide)

/-- C5.  Calibration failure atomicity: `autoconfigure` on an empty
measurement sample fails with the propagated sklearn `ValueError`, and the
error carries the configuration exactly as it was before the call — every
field, `num_iterations` included, is unmodified. -/
theorem c5_empty_sample_atomic (c : PipelinesConfig) (labels : List Nat)
    (p : AutoParams) :
    autoconfigure c [] labels p = .error (emptySampleError, c) := rfl

/-- C6.  Margin padding: for every non-empty cluster group with
non-negative bounds and non-negative margin percentage, the entry written
by `autoconfigure` pads each bound outward by
`min(margin_px_limit, floor(bound * margin_percent))` — subtracted from
the minimum height/width, added to the maximum height/width. -/
theorem c6_margin_padding (g0 : Int × Int) (gs : List (Int × Int))
    (p : AutoParams) (e : GroupEntry) (hmp : 0 ≤ p.margin_percent)
    (hminh : 0 ≤ group_min_h g0 gs) (hmaxh : 0 ≤ group_max_h g0 gs)
    (hminw : 0 ≤ group_min_w g0 gs) (hmaxw : 0 ≤ group_max_w g0 gs)
    (he : cluster_group_entry g0 gs p = some e) :
    e.hRange = (group_min_h g0 gs -
        min p.margin_px_limit
          (Int.floor ((group_min_h g0 gs : Rat) * p.margin_percent)),
      group_max_h g0 gs +
        min p.margin_px_limit
          (Int.floor ((group_max_h g0 gs : Rat) * p.margin_percent))) ∧
    e.wRange = (group_min_w g0 gs -
        min p.margin_px_limit
          (Int.floor ((group_min_w g0 gs : Rat) * p.margin_percent)),
      group_max_w g0 gs +
        min p.margin_px_limit
          (Int.floor ((group_max_w g0 gs : Rat) * p.margin_percent))) := by
  obtain ⟨hh, hw, -, -⟩ := cluster_group_entry_some g0 gs p e he
  constructor
  · rw [hh, add_margin_eq _ _ _ hminh hmp, add_margin_eq _ _ _ hmaxh hmp]
  · rw [hw, add_margin_eq _ _ _ hminw hmp, add_margin_eq _ _ _ hmaxw hmp]

/-- C6 witness: the spec's example group with min height 20, max height 22,
margin 0.1 capped at 5px, gets the padded height range (18, 24); the
padding equals the min/floor formula at every bound. -/
theorem c6_witness :
    cluster_group_entry (20, 30) [(22, 33)] pDefault = some entryC6 ∧
    entryC6.hRange = (18, 24) ∧ entryC6.wRange = (27, 36) := by
  have h := c6_margin_padding (20, 30) [(22, 33)] pDefault entryC6
    (by norm_num [pDefault]) (by decide) (by decide) (by decide) (by decide)
    (by with_unfolding_all rfl)
  exact ⟨by with_unfolding_all rfl, h.1.trans (by with_unfolding_all rfl),
    h.2.trans (by with_unfolding_all rfl)⟩

/-- C7.  Kernel-variant policy: the entry's morphology-kernel choice is
"rectangles" exactly when `use_rect_kernel_for_small` is enabled and both
the unpadded max height and unpadded max width of the group are at most
`rect_kernel_threshold`; in every other case it is "lines". -/
theorem c7_kernel_policy (g0 : Int × Int) (gs : List (Int × Int))
    (p : AutoParams) (e : GroupEntry)
    (he : cluster_group_entry g0 gs p = some e) :
    (e.ktype = "rectangles" ↔
      (p.use_rect_kernel_for_small = true ∧
        group_max_h g0 gs ≤ p.rect_kernel_threshold ∧
        group_max_w g0 gs ≤ p.rect_kernel_threshold)) ∧
    (e.ktype = "rectangles" ∨ e.ktype = "lines") := by
  obtain ⟨-, -, -, hk⟩ := cluster_group_entry_some g0 gs p e he
  rw [hk]
  constructor
  · split_ifs with hcond
    · exact iff_of_true rfl hcond
    · exact iff_of_false (by decide) hcond
  · split_ifs
    · exact Or.inl rfl
    · exact Or.inr rfl

/-- C7 witness: max height 25 and max width 28 with the flag on and
threshold 30 selects "rectangles"; max height 35 selects "lines" even with
the flag on. -/
theorem c7_witness :
    cluster_group_entry (25, 28) [] pRect = some entryC7a ∧
    entryC7a.ktype = "rectangles" ∧
    cluster_group_entry (35, 28) [] pRect = some entryC7b ∧
    entryC7b.ktype = "lines" := by
  have ha := c7_kernel_policy (25, 28) [] pRect entryC7a
    (by with_unfolding_all rfl)
  have hb := c7_kernel_policy (35, 28) [] pRect entryC7b
    (by with_unfolding_all rfl)
  refine ⟨by with_unfolding_all rfl, ha.1.mpr (by decide),
    by with_unfolding_all rfl, ?_⟩
  exact hb.2.resolve_left fun hr => absurd (hb.1.mp hr) (by decide)

/-- C8.  Ratio-range derivation: the `wh_ratio_range` entry for a group is
the ascending-sorted pair of (padded min width / padded min height) and
(padded max width / padded max height), computed from the padded aggregate
bounds — not from the individual points' ratios. -/
theorem c8_ratio_derivation (g0 : Int × Int) (gs : List (Int × Int))
    (p : AutoParams) (e : GroupEntry) (hmp : 0 ≤ p.margin_percent)
    (hminh : 0 ≤ group_min_h g0 gs) (hmaxh : 0 ≤ group_max_h g0 gs)
    (hminw : 0 ≤ group_min_w g0 gs) (hmaxw : 0 ≤ group_max_w g0 gs)
    (he : cluster_group_entry g0 gs p = some e) :
    e.ratio = sortPairQ
      (((group_min_w g0 gs -
          min p.margin_px_limit
            (Int.floor ((group_min_w g0 gs : Rat) * p.margin_percent)) : Int) : Rat) /
        ((group_min_h g0 gs -
          min p.margin_px_limit
            (Int.floor ((group_min_h g0 gs : Rat) * p.margin_percent)) : Int) : Rat))
      (((group_max_w g0 gs +
          min p.margin_px_limit
            (Int.floor ((group_max_w g0 gs : Rat) * p.margin_percent)) : Int) : Rat) /
        ((group_max_h g0 gs +
          min p.margin_px_limit
            (Int.floor ((group_max_h g0 gs : Rat) * p.margin_percent)) : Int) : Rat)) := by
  obtain ⟨-, -, hr, -⟩ := cluster_group_entry_some g0 gs p e he
  rw [hr, add_margin_eq _ _ _ hminh hmp, add_margin_eq _ _ _ hmaxh hmp,
    add_margin_eq _ _ _ hminw hmp, add_margin_eq _ _ _ hmaxw hmp]

/-- C8 witness: the group {(10,20), (20,25)} gets padded bounds
(9,22)x(18,27) and ratio pair sorted from (18/9, 27/22) = (27/22, 2);
the pointwise ratios of the two measurements, sorted, would have been
(5/4, 2) instead. -/
theorem c8_witness :
    cluster_group_entry (10, 20) [(20, 25)] pDefault = some entryC8 ∧
    entryC8.ratio = sortPairQ (((18 : Int) : Rat) / ((9 : Int) : Rat))
      (((27 : Int) : Rat) / ((22 : Int) : Rat)) ∧
    entryC8.ratio = (27/22, 2) ∧ entryC8.ratio ≠ (5/4, 2) := by
  have h := c8_ratio_derivation (10, 20) [(20, 25)] pDefault entryC8
    (by norm_num [pDefault]) (by decide) (by decide) (by decide) (by decide)
    (by with_unfolding_all rfl)
  refine ⟨by with_unfolding_all rfl, h.trans (by with_unfolding_all rfl),
    by with_unfolding_all rfl, ?_⟩
  simp only [entryC8, Prod.mk.injEq, not_and]
  intro hcontra
  norm_num at hcontra

/-- C9.  Default iteration count: a configuration constructed with no
source has `num_iterations` equal to 1. -/
theorem c9_default_num_iterations : construct.num_iterations = 1 := rfl

/-- C10.  Implicit edge case: if any of the nine iterated fields has been
set to the empty list, then — `num_iterations` (the maximum over the
tracked fields) being always at least 1 — the expansion reads the first
element of an empty list and the `variables_as_iterators` call fails with
`IndexError`; the expansion is total only when every iterated list-valued
field is non-empty (see C2). -/
theorem c10_empty_field_failure (c : PipelinesConfig)
    (h : c.width_range = .list [] ∨ c.height_range = .list [] ∨
      c.wh_ratio_range = .list [] ∨ c.dilation_iterations = .list [] ∨
      c.dilation_kernel = .list [] ∨ c.vertical_max_distance = .list [] ∨
      c.horizontal_max_distance = .list [] ∨
      c.morph_kernels_type = .list [] ∨
      c.morph_kernels_thickness = .list []) :
    1 ≤ computed_num_iterations c ∧ variables_as_iterators c = none := by
  refine ⟨one_le_computed_num_iterations c, ?_⟩
  have hconv : conv_to_list (PyVal.list []) (computed_num_iterations c) = none := by
    have hone := one_le_computed_num_iterations c
    simp only [conv_to_list, List.length_nil]
    rw [if_neg (by omega)]
  rcases h with h | h | h | h | h | h | h | h | h <;>
    simp only [variables_as_iterators, update_width_range, update_height_range,
      update_wh_ratio_range, update_dilation_iterations, update_dilation_kernel,
      update_vertical_max_distance, update_horizontal_max_distance,
      update_morph_kernels_type, update_morph_kernels_thickness,
      update_num_iterations_val, h, hconv, obind_none, obind_const_none]

/-- C10 witness: the default configuration with `width_range` emptied has
`num_iterations = 1` but its expansion call fails. -/
theorem c10_witness :
    1 ≤ computed_num_iterations exampleC10 ∧
    variables_as_iterators exampleC10 = none :=
  c10_empty_field_failure exampleC10 (Or.inl rfl)

end Claims

end Boxdetect
